import Mathlib

/-!
Verification of `app/sql_generation/utils.py` (textSQL).

This file gives a shallow embedding of the module under `src/`:
`is_read_only_query`, `execute_sql`, and `text_to_sql_with_retry`,
together with theorems settling the claims about them.

External collaborators (the language-model completion client, the SQL
extractor, the schema provider, the few-shot message provider, and the
database driver behind `ENGINE`) are modelled as explicit function
parameters gathered in a `Collaborators` structure; the code under `src/`
is embedded faithfully on top of them.

Python machine details modelled explicitly:
* `re.search` over the compiled alternation of `modifying_statements`
  becomes a left-to-right scanner (`searchModifying`) that tries each
  pattern at every position with Python word-boundary semantics
  (`\x62` boundaries around the keywords, `\s+` between the two words of
  `LOCK TABLES` / `UNLOCK TABLES`); word characters are restricted to
  ASCII alphanumerics and the underscore, which is exact for ASCII input.
* Python values appearing in result rows become `PyVal`, with
  `pyTypeName` mirroring `type(v).__name__`.
* `OrderedDict` row mappings become insertion-ordered association lists.
* exceptions become `Except` / explicit outcome data.
-/

/-- Word character in the sense of Python's regex `\w` (restricted to
ASCII): a letter, a digit, or an underscore. -/
def isWordChar (c : Char) : Bool := c.isAlphanum || c = '_'

/-- Whitespace in the sense of Python's regex `\s` (ASCII fragment):
space, tab, newline, carriage return, vertical tab, form feed. -/
def pyIsSpace (c : Char) : Bool :=
  c = ' ' || c = '\t' || c = '\n' || c = '\r' || c = '\x0b' || c = '\x0c'

/-- Case-insensitive literal matcher: if `u` starts with pattern `pat`
ignoring case, return the remainder of `u`; otherwise `none`.  This is
the embedding of matching the literal part of one regex alternative. -/
def dropCI : List Char → List Char → Option (List Char)
  | [], u => some u
  | _ :: _, [] => none
  | p :: ps, c :: cs => if c.toLower = p.toLower then dropCI ps cs else none

/-- A word boundary right after a keyword occurrence: the rest of the
input is empty or starts with a non-word character.  (The denylist
keywords all end in a word character, so `\x62` reduces to this.) -/
def boundaryAfterB : List Char → Bool
  | [] => true
  | c :: _ => !isWordChar c

/-- Match one single-word regex alternative `\x62KW\x62` at the head of `u`
(the boundary before the keyword is checked by the caller). -/
def matchSingleHere (w : List Char) (u : List Char) : Bool :=
  match dropCI w u with
  | some rest => boundaryAfterB rest
  | none => false

/-- Match one two-word regex alternative `\x62W1\s+W2\x62` at the head of
`u`: the first word, then a nonempty whitespace run of some length `g`,
then the second word followed by a word boundary. -/
def matchPhraseHere (w1 w2 : List Char) (u : List Char) : Bool :=
  match dropCI w1 u with
  | some rest =>
    (List.range (rest.length + 1)).any fun g =>
      decide (0 < g) && (rest.take g).all pyIsSpace && matchSingleHere w2 (rest.drop g)
  | none => false

/-- One alternative of the compiled pattern of `is_read_only_query`:
either a single keyword or a two-word keyword joined by `\s+`. -/
inductive SqlPat where
  | word (w : String)
  | phrase (w1 w2 : String)

/-- The denylist of `is_read_only_query`, in source order:
`INSERT, UPDATE, DELETE, DROP, CREATE, ALTER, GRANT, TRUNCATE,
LOCK\s+TABLES, UNLOCK\s+TABLES`, each wrapped in `\x62` boundaries. -/
def modifying_statements : List SqlPat :=
  [.word "INSERT", .word "UPDATE", .word "DELETE", .word "DROP", .word "CREATE",
   .word "ALTER", .word "GRANT", .word "TRUNCATE",
   .phrase "LOCK" "TABLES", .phrase "UNLOCK" "TABLES"]

/-- Match one alternative at the head of `u`. -/
def matchPatHere : SqlPat → List Char → Bool
  | .word w, u => matchSingleHere w.toList u
  | .phrase w1 w2, u => matchPhraseHere w1.toList w2.toList u

/-- Match any alternative of the compiled pattern at the head of `u`. -/
def anyPatternHere (u : List Char) : Bool :=
  modifying_statements.any (fun p => matchPatHere p u)

/-- The embedding of `pattern.search(sql_query)`: scan positions left to
right; at each position whose preceding character is not a word character
(the `\x62` before the keyword; `prevWord` carries whether the previous
character was a word character, initially `false` at the start of the
string), try every alternative. -/
def searchModifying : Bool → List Char → Bool
  | _, [] => false
  | prevWord, c :: cs =>
      ((!prevWord) && anyPatternHere (c :: cs)) || searchModifying (isWordChar c) cs

/-- Embedding of `is_read_only_query` from
`app/sql_generation/utils.py`: true iff the compiled denylist pattern
finds no match in the query. -/
def is_read_only_query (sql_query : String) : Bool :=
  !(searchModifying false sql_query.toList)

/-! ### Spec-side characterisation of keyword containment

The following definitions formalise the specification's words
"contains a denylisted keyword as a case-insensitive whole word" as a
positional containment check, independent of the scanner above:
an occurrence is a start position `i` with a word boundary before it,
the keyword's characters (case-insensitively) as a slice at `i`, and a
word boundary after the slice. -/

/-- Case-insensitive equality of two character lists. -/
def lowerEqB (a b : List Char) : Bool :=
  decide (a.map Char.toLower = b.map Char.toLower)

/-- The keyword `kw` occurs at the head of the suffix `u`, as a slice
followed by a word boundary. -/
def specWordAtTail (kw u : List Char) : Bool :=
  lowerEqB kw (u.take kw.length) && boundaryAfterB (u.drop kw.length)

/-- The two-word keyword `w1 … w2` occurs at the head of the suffix `u`
with some nonempty whitespace run of length `g` between the words. -/
def specPhraseAtTail (w1 w2 u : List Char) : Bool :=
  lowerEqB w1 (u.take w1.length) &&
  ((List.range (u.length + 1)).any fun g =>
    decide (0 < g) && (((u.drop w1.length).take g).all pyIsSpace) &&
    specWordAtTail w2 ((u.drop w1.length).drop g))

/-- Word boundary before position `i` of `cs`: `i` is the start of the
string or the previous character is not a word character. -/
def boundaryBeforeB (cs : List Char) (i : Nat) : Bool :=
  match i with
  | 0 => true
  | j + 1 => !isWordChar (cs.getD j ' ')

/-- Generalisation of `boundaryBeforeB` used to reason about the
scanner: the boundary state before position `i` of `cs` when the
character just before `cs` has word-character status `prevWord`. -/
def prevBoundaryB (prevWord : Bool) (cs : List Char) : Nat → Bool
  | 0 => !prevWord
  | j + 1 => !isWordChar (cs.getD j ' ')

/-- Spec-side occurrence of one pattern at the suffix starting at a
position. -/
def specPatHit : SqlPat → List Char → Bool
  | .word w, u => specWordAtTail w.toList u
  | .phrase w1 w2, u => specPhraseAtTail w1.toList w2.toList u

/-- Spec-side containment (amended reading): some denylisted keyword —
with `LOCK TABLES` / `UNLOCK TABLES` allowing any nonempty whitespace run
between the two words — occurs somewhere in `s` as a case-insensitive
whole word. -/
def containsDenyWS (s : String) : Bool :=
  let cs := s.toList
  (List.range (cs.length + 1)).any fun i =>
    boundaryBeforeB cs i && modifying_statements.any (fun p => specPatHit p (cs.drop i))

/-- The ten denylisted keywords exactly as the claim lists them, the
two-word ones written with a single literal space. -/
def denyLiterals : List String :=
  ["INSERT", "UPDATE", "DELETE", "DROP", "CREATE", "ALTER", "GRANT", "TRUNCATE",
   "LOCK TABLES", "UNLOCK TABLES"]

/-- Spec-side containment, literal reading of the claim: some keyword of
`denyLiterals` (with its single literal space) occurs in `s` as a
case-insensitive whole word. -/
def containsDenyLit (s : String) : Bool :=
  let cs := s.toList
  (List.range (cs.length + 1)).any fun i =>
    boundaryBeforeB cs i && denyLiterals.any fun kw => specWordAtTail kw.toList (cs.drop i)

/-- The single-quote character (code point 39), used to build SQL
string literals without embedding quote characters in the Lean source. -/
def singleQuote : String := String.singleton (Char.ofNat 39)

/-- The concrete query of the claim about keywords inside string
literals: `SELECT` followed by `update me` wrapped in single quotes. -/
def selectUpdateMe : String := "SELECT " ++ singleQuote ++ "update me" ++ singleQuote

/-! ### Embedding of `execute_sql` -/

/-- A Python value as it appears in a result row. -/
inductive PyVal where
  | vInt (n : Int)
  | vStr (s : String)
  | vBool (b : Bool)
  | vNone
deriving DecidableEq

/-- Embedding of `type(v).__name__` on `PyVal`. -/
def pyTypeName : PyVal → String
  | .vInt _ => "int"
  | .vStr _ => "str"
  | .vBool _ => "bool"
  | .vNone => "NoneType"

/-- Exceptions raised inside `execute_sql`. -/
inductive PyErr where
  | notReadOnly
  | indexError
  | executionError (msg : String)
deriving DecidableEq

/-- Embedding of `str(e)` for the exceptions of `execute_sql`:
`NotReadOnlyException` carries the message from the source,
`ExecutionError` carries the driver message verbatim. -/
def pyErrMsg : PyErr → String
  | .notReadOnly => "Only read-only queries are allowed."
  | .indexError => "list index out of range"
  | .executionError m => m

/-- Embedding of the dictionary returned by `execute_sql`:
`column_names`, `results` (each an insertion-ordered `OrderedDict`,
modelled as an association list), and the optional `column_types` key. -/
structure ResultDict where
  column_names : List String
  results : List (List (String × PyVal))
  column_types : Option (List String)
deriving DecidableEq

/-- `OrderedDict.__setitem__`: overwrite in place if the key is present
(keeping its position), otherwise append at the end. -/
def odInsert (m : List (String × PyVal)) (key : String) (v : PyVal) :
    List (String × PyVal) :=
  match m with
  | [] => [(key, v)]
  | (k0, v0) :: rest =>
    if k0 = key then (k0, v) :: rest else (k0, v0) :: odInsert rest key v

/-- The row-dictionary build of `execute_sql`:
`for i, column_name in enumerate(column_names): result[column_name] = row[i]`.
Raises `IndexError` when the row is shorter than the column list. -/
def buildRowDict (column_names : List String) (row : List PyVal) :
    Except PyErr (List (String × PyVal)) :=
  go column_names 0 []
where
  go : List String → Nat → List (String × PyVal) → Except PyErr (List (String × PyVal))
  | [], _, acc => .ok acc
  | c :: cs, i, acc =>
    match row.get? i with
    | none => .error .indexError
    | some v => go cs (i + 1) (odInsert acc c v)

/-- The `results` list of `execute_sql`: one `OrderedDict` per row, in
row order; an exception while building any row aborts the whole loop. -/
def buildResults (column_names : List String) :
    List (List PyVal) → Except PyErr (List (List (String × PyVal)))
  | [] => .ok []
  | row :: rest =>
    match buildRowDict column_names row with
    | .error e => .error e
    | .ok r =>
      match buildResults column_names rest with
      | .error e => .error e
      | .ok rs => .ok (r :: rs)

/-- The full observable behaviour of one `execute_sql` call: its outcome,
whether `ENGINE.connect()` was entered, and whether the statement was
handed to the driver. -/
structure ExecCall where
  outcome : Except PyErr ResultDict
  connectionOpened : Bool
  statementExecuted : Bool

/-- The database driver behind `ENGINE`, as an external collaborator:
a query string is mapped to either a driver error message or the pair
(`result.keys()`, `result.all()`). -/
def Driver : Type := String → Except String (List String × List (List PyVal))

/-- Embedding of `execute_sql` from `app/sql_generation/utils.py`:
check `is_read_only_query` first (raising `NotReadOnlyException` and
touching nothing else when it fails), then open a connection, run the
statement, materialise the rows into `OrderedDict`s, and add the
`column_types` key only when `results` is nonempty.  Note the source
computes `column_types` by iterating over `results[0]` itself — i.e.
over the keys of the `OrderedDict`, each a Python `str`. -/
def execute_sql (db : Driver) (sql_query : String) : ExecCall :=
  if !is_read_only_query sql_query then
    ⟨.error .notReadOnly, false, false⟩
  else
    match db sql_query with
    | .error msg => ⟨.error (.executionError msg), true, true⟩
    | .ok (column_names, rows) =>
      match buildResults column_names rows with
      | .error e => ⟨.error e, true, true⟩
      | .ok results =>
        match results with
        | [] => ⟨.ok ⟨column_names, results, none⟩, true, true⟩
        | r0 :: _ =>
          ⟨.ok ⟨column_names, results,
              some (r0.map fun kv => pyTypeName (.vStr kv.1))⟩, true, true⟩

/-! ### Embedding of `text_to_sql_with_retry` -/

/-- One conversation message: a role and a content string. -/
structure Message where
  role : String
  content : String
deriving DecidableEq

/-- The external collaborators of `text_to_sql_with_retry`. -/
structure Collaborators where
  get_table_schemas_str : List String → String
  get_few_shot_messages : String → List Message
  get_assistant_message : List Message → String → Except String String
  extract_sql_query_from_message : String → Except String String
  db : Driver

/-- Embedding of the module constant `MSG_WITH_ERROR_TRY_AGAIN`
instantiated with `.format(error_message=...)`. -/
def MSG_WITH_ERROR_TRY_AGAIN (error_message : String) : String :=
  "\nThe SQL query you just generated resulted in the following error message:\n---------------------\n"
    ++ error_message ++
    "\n---------------------\n\nProvide an explanation of what went wrong, how to fix it, and the sql in the following format:\n```\n-- <explanation of what went wrong>\n<SQL>\n```\n"

/-- Embedding of `make_msg_with_schema_and_warnings().format(...)`. -/
def make_msg_with_schema_and_warnings (natural_language_query schemas_str : String) : String :=
  "\nGenerate syntactically correct read-only SQL to answer the following question/command: "
    ++ natural_language_query ++
    "\nThe following are schemas of tables you can query:\n---------------------\n"
    ++ schemas_str ++
    "\n---------------------\n\nInstructions:\n\nWalk through the following information in your response:\n    -- Paraphrase what the query should result in\n    -- A quick list of the types of information that will be in the response (1 line)\n    -- A list of the table.columns that will be relevant to both the input and the output (1 line)\n    -- Note any uniqueness/null/other things to account for in the plan based on any tables/columns being used (e.g. MAX or DISTINCT required)\n    -- A plan for how to get that information from the schema above (up to 3 lines). You can use any of the tables/columns above and only the tables/columns above.\n\n    ```\n    The SQL query in MARKDOWN format, including readable names where possible.\n    ```\n\nNotes:\n> All tables and columns must be present in the above schema.\n> Include any tables needed to do the human-readable conversions relevant to the query.\n> Make sure to write your answer in markdown format. Before the markdown provide a plan for what query to run.\n> Each column must include the table name (e.g. table.column) to avoid ambiguity.\n> Include nothing after the markdown.\n> Warning: Some values may be null so watch out for those. Also make sure to always sort with NULLS LAST.\n> Use CTE if joins are needed, but keep it simple if possible.\n\n    \n"

/-- Embedding of `make_default_messages`: the system prompt is commented
out in the source, so the default conversation is exactly the few-shot
messages; `schemas_str` is received but unused. -/
def make_default_messages (c : Collaborators) (schemas_str : String) : List Message :=
  let _ := schemas_str
  c.get_few_shot_messages "text_to_sql"

/-- The conversation `text_to_sql_with_retry` enters its loop with:
`if not messages:` (Python: `None` or the empty list) rebuilds it from
the schema text and the instruction template, otherwise the caller's
list is used as-is.  `None` is modelled as the empty list. -/
def initialMessages (c : Collaborators) (natural_language_query : String)
    (table_names : List String) (messages : List Message) : List Message :=
  if messages.isEmpty then
    let schemas_str := c.get_table_schemas_str table_names
    let content := make_msg_with_schema_and_warnings natural_language_query schemas_str
    make_default_messages c schemas_str ++ [⟨"user", content⟩]
  else messages

/-- The value of one `text_to_sql_with_retry` call:
`success response sql` for `return response, sql_query`, `exhausted` for
the final `return None, None`, and `raised` for the uncaught `TypeError`
produced by subscripting `assistant_message` while it is still `None`
inside the `except` handler. -/
inductive T2SResult where
  | success (response : ResultDict) (sql_query : String)
  | exhausted
  | raised
deriving DecidableEq

/-- How many times each collaborator was called during one run. -/
structure Counts where
  completions : Nat
  extractions : Nat
  executions : Nat
deriving DecidableEq

/-- Observable outcome of one `text_to_sql_with_retry` call: the result,
the collaborator call counts, and the final state of `messages`. -/
structure RunState where
  result : T2SResult
  counts : Counts
  messages : List Message
deriving DecidableEq

/-- The `for _ in range(k)` loop of `text_to_sql_with_retry`.
`prevAssistant` is the current value of the `assistant_message` variable
(`none` = Python `None`): it is overwritten by each successful
completion call and read by the `except` handler, which appends the
assistant's content and a correction message built from
`MSG_WITH_ERROR_TRY_AGAIN` and retries — except that when it is still
`None` (no completion ever succeeded) the subscript raises `TypeError`
and the whole call aborts with nothing appended. -/
def retryLoop (c : Collaborators) : Nat → List Message → Option String → RunState
  | 0, msgs, _ => ⟨.exhausted, ⟨0, 0, 0⟩, msgs⟩
  | n + 1, msgs, prevAssistant =>
    match c.get_assistant_message msgs "gpt-3.5-turbo-0301" with
    | .error e =>
      match prevAssistant with
      | none => ⟨.raised, ⟨1, 0, 0⟩, msgs⟩
      | some prevContent =>
        let msgs' := msgs ++ [⟨"assistant", prevContent⟩,
                              ⟨"user", MSG_WITH_ERROR_TRY_AGAIN e⟩]
        let rest := retryLoop c n msgs' (some prevContent)
        ⟨rest.result,
         ⟨rest.counts.completions + 1, rest.counts.extractions, rest.counts.executions⟩,
         rest.messages⟩
    | .ok content =>
      match c.extract_sql_query_from_message content with
      | .error e =>
        let msgs' := msgs ++ [⟨"assistant", content⟩,
                              ⟨"user", MSG_WITH_ERROR_TRY_AGAIN e⟩]
        let rest := retryLoop c n msgs' (some content)
        ⟨rest.result,
         ⟨rest.counts.completions + 1, rest.counts.extractions + 1, rest.counts.executions⟩,
         rest.messages⟩
      | .ok sql_query =>
        match (execute_sql c.db sql_query).outcome with
        | .ok response => ⟨.success response sql_query, ⟨1, 1, 1⟩, msgs⟩
        | .error err =>
          let msgs' := msgs ++ [⟨"assistant", content⟩,
                                ⟨"user", MSG_WITH_ERROR_TRY_AGAIN (pyErrMsg err)⟩]
          let rest := retryLoop c n msgs' (some content)
          ⟨rest.result,
           ⟨rest.counts.completions + 1, rest.counts.extractions + 1,
            rest.counts.executions + 1⟩,
           rest.messages⟩

/-- Embedding of `text_to_sql_with_retry` from
`app/sql_generation/utils.py`.  The attempt budget `k` is a Python int;
`range(k)` iterates `max(k, 0)` times, i.e. `k.toNat` times. -/
def text_to_sql_with_retry (c : Collaborators) (natural_language_query : String)
    (table_names : List String) (k : Int) (messages : List Message) : RunState :=
  retryLoop c k.toNat (initialMessages c natural_language_query table_names messages) none

/-- One recoverable per-attempt failure for a given assistant reply:
either SQL extraction raises, or the extracted SQL makes `execute_sql`
raise (not read-only, or a driver error). -/
def recoverableFailure (c : Collaborators) (content : String) : Prop :=
  (∃ e, c.extract_sql_query_from_message content = .error e) ∨
  (∃ sql err, c.extract_sql_query_from_message content = .ok sql ∧
    (execute_sql c.db sql).outcome = .error err)

/-- A list of appended correction turns: pairs of an assistant message
(the raw reply) followed by a user message built from the
error-correction template. -/
inductive CorrectionTurns : List Message → Prop
  | nil : CorrectionTurns []
  | cons (content e : String) (t : List Message) :
      CorrectionTurns t →
      CorrectionTurns (⟨"assistant", content⟩ :: ⟨"user", MSG_WITH_ERROR_TRY_AGAIN e⟩ :: t)

/-! ## Theorems

### The read-only guard: scanner vs. positional containment -/

theorem anyPatternHere_nil : anyPatternHere [] = false := by decide

theorem specWordAtTail_nil (w : List Char) (hw : w ≠ []) :
    specWordAtTail w [] = false := by
  simp [specWordAtTail, lowerEqB, List.map_eq_nil_iff, hw]

theorem dropCI_eq (w : List Char) :
    ∀ u, dropCI w u =
      if lowerEqB w (u.take w.length) then some (u.drop w.length) else none := by
  induction w with
  | nil => intro u; simp [dropCI, lowerEqB]
  | cons p ps ih =>
    intro u
    cases u with
    | nil => simp [dropCI, lowerEqB]
    | cons c cs =>
      by_cases h : c.toLower = p.toLower
      · simp [dropCI, h, ih cs, lowerEqB]
      · have hcond : ¬(p.toLower = c.toLower ∧
            List.map Char.toLower ps = List.take ps.length (List.map Char.toLower cs)) := by
          rintro ⟨hh, -⟩; exact h hh.symm
        simp [dropCI, h, lowerEqB, hcond]

theorem matchSingleHere_eq (w u : List Char) :
    matchSingleHere w u = specWordAtTail w u := by
  unfold matchSingleHere specWordAtTail
  rw [dropCI_eq]
  cases h : lowerEqB w (u.take w.length) <;> simp [h]

theorem matchPhraseHere_eq (w1 w2 : List Char) (hw2 : w2 ≠ []) (u : List Char) :
    matchPhraseHere w1 w2 u = specPhraseAtTail w1 w2 u := by
  unfold matchPhraseHere specPhraseAtTail
  rw [dropCI_eq]
  cases h : lowerEqB w1 (u.take w1.length)
  · simp [h]
  · simp only [h, if_true, Bool.true_and, matchSingleHere_eq]
    rw [Bool.eq_iff_iff]
    simp only [List.any_eq_true, List.mem_range, Nat.lt_succ_iff, Bool.and_eq_true,
      decide_eq_true_eq]
    constructor
    · rintro ⟨g, hg, hf⟩
      refine ⟨g, le_trans hg ?_, hf⟩
      rw [List.length_drop]
      omega
    · rintro ⟨g, hg, ⟨hg0, hws⟩, hw⟩
      refine ⟨g, ?_, ⟨hg0, hws⟩, hw⟩
      by_contra hlt
      push_neg at hlt
      rw [List.drop_eq_nil_of_le (le_of_lt hlt), specWordAtTail_nil w2 hw2] at hw
      exact absurd hw (by simp)

theorem searchModifying_iff (cs : List Char) :
    ∀ prevWord, searchModifying prevWord cs = true ↔
      ∃ i, i ≤ cs.length ∧ prevBoundaryB prevWord cs i = true ∧
        anyPatternHere (cs.drop i) = true := by
  induction cs with
  | nil =>
    intro prev
    simp only [searchModifying]
    constructor
    · intro h; simp at h
    · rintro ⟨i, hi, -, hpat⟩
      have hz : i = 0 := Nat.le_zero.mp hi
      subst hz
      rw [List.drop_nil, anyPatternHere_nil] at hpat
      simp at hpat
  | cons c cs ih =>
    intro prev
    simp only [searchModifying, Bool.or_eq_true, Bool.and_eq_true, ih (isWordChar c)]
    constructor
    · rintro (⟨hp, ha⟩ | ⟨i, hi, hb, hpat⟩)
      · exact ⟨0, Nat.zero_le _, hp, by simpa using ha⟩
      · refine ⟨i + 1, Nat.succ_le_succ hi, ?_, by simpa using hpat⟩
        cases i with
        | zero => simpa [prevBoundaryB] using hb
        | succ j => simpa [prevBoundaryB] using hb
    · rintro ⟨i, hi, hb, hpat⟩
      cases i with
      | zero => exact Or.inl ⟨hb, by simpa using hpat⟩
      | succ j =>
        refine Or.inr ⟨j, Nat.le_of_succ_le_succ hi, ?_, by simpa using hpat⟩
        cases j with
        | zero => simpa [prevBoundaryB] using hb
        | succ m => simpa [prevBoundaryB] using hb

theorem prevBoundaryB_false (cs : List Char) (i : Nat) :
    prevBoundaryB false cs i = boundaryBeforeB cs i := by
  cases i <;> rfl

theorem matchPhraseHere_eq_lock (u : List Char) :
    matchPhraseHere "LOCK".toList "TABLES".toList u =
      specPhraseAtTail "LOCK".toList "TABLES".toList u :=
  matchPhraseHere_eq _ _ (by decide) u

theorem matchPhraseHere_eq_unlock (u : List Char) :
    matchPhraseHere "UNLOCK".toList "TABLES".toList u =
      specPhraseAtTail "UNLOCK".toList "TABLES".toList u :=
  matchPhraseHere_eq _ _ (by decide) u

theorem anyPatternHere_eq_spec (u : List Char) :
    anyPatternHere u = modifying_statements.any (fun p => specPatHit p u) := by
  simp only [anyPatternHere, modifying_statements, List.any_cons, List.any_nil,
    matchPatHere, specPatHit, matchSingleHere_eq, matchPhraseHere_eq_lock,
    matchPhraseHere_eq_unlock]

theorem searchModifying_eq_contains (s : String) :
    searchModifying false s.toList =
      ((List.range (s.toList.length + 1)).any fun i =>
        boundaryBeforeB s.toList i &&
          modifying_statements.any (fun p => specPatHit p (s.toList.drop i))) := by
  rw [Bool.eq_iff_iff, searchModifying_iff]
  simp only [List.any_eq_true, List.mem_range, Nat.lt_succ_iff, Bool.and_eq_true,
    prevBoundaryB_false, anyPatternHere_eq_spec]

/-- C5 (amended). For every SQL string containing one of the denylisted
keywords (INSERT, UPDATE, DELETE, DROP, CREATE, ALTER, GRANT, TRUNCATE,
LOCK TABLES, UNLOCK TABLES — the two-word keywords matching with any
nonempty whitespace run between the words) as a case-insensitive whole
word, `is_read_only_query` returns false; for every string containing
none of them, it returns true.  Stated as: the guard returns the
negation of the containment check `containsDenyWS`. -/
theorem claim_C5_readonly_iff_no_keyword (s : String) :
    is_read_only_query s = !containsDenyWS s := by
  unfold is_read_only_query containsDenyWS
  rw [searchModifying_eq_contains]

/-- C5 counterexample. The claim as literally stated fails: the string
`LOCK \t TABLES` (space, tab, space between the words) contains none of
the ten listed keywords as a whole word — in particular not the literal
`LOCK TABLES` — yet `is_read_only_query` returns false, because the
source regex joins the two words with `\s+`. -/
theorem claim_C5_counterexample :
    containsDenyLit "LOCK \t TABLES" = false ∧
      is_read_only_query "LOCK \t TABLES" = false := by
  exact ⟨by decide, by decide⟩

/-- C3 counterexample. The claim states that
`is_read_only_query "SELECT 'update me'"` returns true; in fact the
embedded `is_read_only_query` returns false on that string
(`selectUpdateMe` is exactly `SELECT 'update me'`), because `update`
inside the quoted literal is still a whole-word match of the denylist
regex. -/
theorem claim_C3_counterexample : is_read_only_query selectUpdateMe = false := by
  decide

/-- C3 (amended). A denylisted keyword appearing only inside a
single-quoted string literal still causes the query to be classified as
mutating: `update` occurs in `SELECT 'update me'` as a case-insensitive
whole word in the purely lexical sense, and `is_read_only_query` returns
false — the documented keyword-inside-literal limitation. -/
theorem claim_C3_keyword_in_literal :
    containsDenyWS selectUpdateMe = true ∧ is_read_only_query selectUpdateMe = false := by
  exact ⟨by decide, by decide⟩

/-! ### `execute_sql`: validation and the shape of results -/

/-- C7. For every driver and every SQL string with
`is_read_only_query` false, `execute_sql` raises
`NotReadOnlyException`, opens no database connection and executes no
statement. -/
theorem claim_C7_not_read_only_never_executes (db : Driver) (sql_query : String)
    (h : is_read_only_query sql_query = false) :
    execute_sql db sql_query = ⟨.error .notReadOnly, false, false⟩ := by
  simp [execute_sql, h]

theorem claim_C7_witness :
    is_read_only_query "DROP TABLE users" = false ∧
      execute_sql (fun _ => .error "unreachable") "DROP TABLE users" =
        ⟨.error .notReadOnly, false, false⟩ :=
  ⟨by decide, claim_C7_not_read_only_never_executes _ _ (by decide)⟩

/-- A driver stub returning one column `n` with one integer row. -/
def dbIntRow : Driver := fun _ => .ok (["n"], [[.vInt 42]])

/-- A driver stub returning one column `n` and no rows. -/
def dbNoRows : Driver := fun _ => .ok (["n"], [])

/-- C2 (code bug witnessed). With a non-empty result set whose first row
holds the integer 42, the source computes `column_types` by iterating
over `results[0]` itself — the keys of the `OrderedDict`, each a Python
`str` — so the returned tag is `"str"` although the type tag of the
value in the first row is `"int"`.  The second conjunct shows the part
of the claim the code does satisfy: with an empty result set the
`column_types` key is absent. -/
theorem claim_C2_column_types_are_key_types :
    (execute_sql dbIntRow "SELECT n FROM t").outcome =
        .ok ⟨["n"], [[("n", .vInt 42)]], some ["str"]⟩ ∧
      pyTypeName (.vInt 42) = "int" ∧
      (execute_sql dbNoRows "SELECT n FROM t").outcome = .ok ⟨["n"], [], none⟩ := by
  refine ⟨rfl, rfl, rfl⟩

theorem odInsert_not_mem (m : List (String × PyVal)) (key : String) (v : PyVal)
    (h : key ∉ m.map Prod.fst) : odInsert m key v = m ++ [(key, v)] := by
  induction m with
  | nil => rfl
  | cons kv rest ih =>
    obtain ⟨k0, v0⟩ := kv
    simp only [List.map_cons, List.mem_cons] at h
    push_neg at h
    obtain ⟨h1, h2⟩ := h
    have hne : ¬k0 = key := fun hh => h1 hh.symm
    simp [odInsert, hne, ih h2]

theorem buildRowDict_go_keys (row : List PyVal) :
    ∀ (cs : List String) (i : Nat) (acc m : List (String × PyVal)),
      buildRowDict.go row cs i acc = .ok m →
      (∀ c ∈ cs, c ∉ acc.map Prod.fst) → cs.Nodup →
      m.map Prod.fst = acc.map Prod.fst ++ cs := by
  intro cs
  induction cs with
  | nil =>
    intro i acc m h _ _
    simp only [buildRowDict.go] at h
    injection h with h
    subst h
    simp
  | cons c cs ih =>
    intro i acc m h hmem hnd
    cases hv : row.get? i with
    | none =>
      simp only [buildRowDict.go, hv] at h
      exact Except.noConfusion h
    | some v =>
      simp only [buildRowDict.go, hv] at h
      have hcnot : c ∉ acc.map Prod.fst := hmem c (List.mem_cons_self c cs)
      rw [odInsert_not_mem _ _ _ hcnot] at h
      obtain ⟨hhead, hnd'⟩ := List.nodup_cons.mp hnd
      have hmem' : ∀ c' ∈ cs, c' ∉ (acc ++ [(c, v)]).map Prod.fst := by
        intro c' hc'
        simp only [List.map_append, List.mem_append, List.map_cons, List.map_nil,
          List.mem_singleton]
        push_neg
        exact ⟨hmem c' (List.mem_cons_of_mem _ hc'),
               fun hh => hhead (hh ▸ hc')⟩
      have hrec := ih (i + 1) (acc ++ [(c, v)]) m h hmem' hnd'
      rw [hrec]
      simp

theorem buildRowDict_keys (cols : List String) (row : List PyVal)
    (m : List (String × PyVal)) (h : buildRowDict cols row = .ok m)
    (hnd : cols.Nodup) : m.map Prod.fst = cols := by
  have := buildRowDict_go_keys row cols 0 [] m h (by simp) hnd
  simpa using this

theorem buildResults_forall (cols : List String) :
    ∀ (rows : List (List PyVal)) (results : List (List (String × PyVal))),
      buildResults cols rows = .ok results →
      ∀ m ∈ results, ∃ row, buildRowDict cols row = .ok m := by
  intro rows
  induction rows with
  | nil =>
    intro results h m hm
    simp only [buildResults] at h
    injection h with h
    subst h
    cases hm
  | cons row rest ih =>
    intro results h m hm
    simp only [buildResults] at h
    cases h1 : buildRowDict cols row with
    | error e => rw [h1] at h; cases h
    | ok r =>
      rw [h1] at h
      cases h2 : buildResults cols rest with
      | error e => simp [h2] at h
      | ok rs =>
        simp only [h2] at h
        injection h with h
        subst h
        rcases List.mem_cons.mp hm with hm | hm
        · exact ⟨row, hm ▸ h1⟩
        · exact ih rs h2 m hm

/-- C6. For every successful `execute_sql` call whose column names are
unique (the data-model invariant of the driver contract), every returned
row mapping has exactly `len(column_names)` entries and its insertion
order equals the column order. -/
theorem claim_C6_rows_aligned (db : Driver) (sql_query : String) (res : ResultDict)
    (hok : (execute_sql db sql_query).outcome = .ok res)
    (hnd : res.column_names.Nodup) :
    ∀ m ∈ res.results, m.length = res.column_names.length ∧
      m.map Prod.fst = res.column_names := by
  unfold execute_sql at hok
  split at hok
  · simp at hok
  · split at hok
    · simp at hok
    · rename_i cols rows hdb
      split at hok
      · simp at hok
      · rename_i results hbr
        split at hok
        · dsimp only at hok
          rw [Except.ok.injEq] at hok
          subst hok
          simp
        · rename_i r0 rest
          dsimp only at hok
          rw [Except.ok.injEq] at hok
          subst hok
          intro m hm
          simp only at hm hnd ⊢
          obtain ⟨row, hrow⟩ := buildResults_forall cols rows _ hbr m hm
          have hkeys := buildRowDict_keys cols row m hrow hnd
          refine ⟨?_, hkeys⟩
          rw [← hkeys]
          simp

/-- A driver stub with two columns and two rows, for the C6 witness. -/
def dbTwoCols : Driver :=
  fun _ => .ok (["a", "b"], [[.vInt 1, .vStr "x"], [.vNone, .vBool true]])

/-- The dictionary `execute_sql dbTwoCols` returns. -/
def resTwoCols : ResultDict :=
  ⟨["a", "b"],
   [[("a", .vInt 1), ("b", .vStr "x")], [("a", .vNone), ("b", .vBool true)]],
   some ["str", "str"]⟩

theorem claim_C6_witness :
    ([(("a" : String), PyVal.vInt 1), ("b", PyVal.vStr "x")]).length =
        resTwoCols.column_names.length ∧
      ([(("a" : String), PyVal.vInt 1), ("b", PyVal.vStr "x")]).map Prod.fst =
        resTwoCols.column_names :=
  claim_C6_rows_aligned dbTwoCols "SELECT a, b FROM t" resTwoCols rfl (by decide)
    _ (by simp [resTwoCols])

/-! ### The retry loop -/

theorem retryLoop_messages_extend (c : Collaborators) :
    ∀ (n : Nat) (msgs : List Message) (prev : Option String),
      ∃ t, (retryLoop c n msgs prev).messages = msgs ++ t := by
  intro n
  induction n with
  | zero => intro msgs prev; exact ⟨[], by simp [retryLoop]⟩
  | succ n ih =>
    intro msgs prev
    unfold retryLoop
    cases hc : c.get_assistant_message msgs "gpt-3.5-turbo-0301" with
    | error e =>
      cases prev with
      | none => exact ⟨[], by simp⟩
      | some prevContent =>
        obtain ⟨t, ht⟩ := ih
          (msgs ++ [⟨"assistant", prevContent⟩, ⟨"user", MSG_WITH_ERROR_TRY_AGAIN e⟩])
          (some prevContent)
        exact ⟨[⟨"assistant", prevContent⟩, ⟨"user", MSG_WITH_ERROR_TRY_AGAIN e⟩] ++ t,
          by simpa using ht⟩
    | ok content =>
      cases hx : c.extract_sql_query_from_message content with
      | error e =>
        obtain ⟨t, ht⟩ := ih
          (msgs ++ [⟨"assistant", content⟩, ⟨"user", MSG_WITH_ERROR_TRY_AGAIN e⟩])
          (some content)
        refine ⟨[⟨"assistant", content⟩, ⟨"user", MSG_WITH_ERROR_TRY_AGAIN e⟩] ++ t, ?_⟩
        simp only [hx]
        simpa using ht
      | ok sql_query =>
        cases ho : (execute_sql c.db sql_query).outcome with
        | ok response =>
          refine ⟨[], ?_⟩
          simp only [hx, ho]
          simp
        | error err =>
          obtain ⟨t, ht⟩ := ih
            (msgs ++ [⟨"assistant", content⟩,
                      ⟨"user", MSG_WITH_ERROR_TRY_AGAIN (pyErrMsg err)⟩])
            (some content)
          refine ⟨[⟨"assistant", content⟩,
                  ⟨"user", MSG_WITH_ERROR_TRY_AGAIN (pyErrMsg err)⟩] ++ t, ?_⟩
          simp only [hx, ho]
          simpa using ht

/-- C9. The conversation is only ever appended to: for every state of
the loop (every fuel value, message list, and `assistant_message`
value), the final message list extends the current one — no message is
removed, edited, or reordered; and the final conversation of a whole
`text_to_sql_with_retry` call extends its initial conversation. -/
theorem claim_C9_append_only (c : Collaborators) (n : Nat) (msgs : List Message)
    (prev : Option String) (nlq : String) (tns : List String) (k : Int)
    (messages : List Message) :
    (∃ t, (retryLoop c n msgs prev).messages = msgs ++ t) ∧
      (∃ t, (text_to_sql_with_retry c nlq tns k messages).messages =
        initialMessages c nlq tns messages ++ t) :=
  ⟨retryLoop_messages_extend c n msgs prev,
   retryLoop_messages_extend c _ _ none⟩

/-- C10. With an attempt budget `k ≤ 0` the loop body never runs:
`text_to_sql_with_retry` returns the explicit no-result pair with zero
completion calls, zero extraction calls and zero executions. -/
theorem claim_C10_nonpositive_budget (c : Collaborators) (nlq : String)
    (tns : List String) (k : Int) (messages : List Message) (hk : k ≤ 0) :
    text_to_sql_with_retry c nlq tns k messages =
      ⟨.exhausted, ⟨0, 0, 0⟩, initialMessages c nlq tns messages⟩ := by
  unfold text_to_sql_with_retry
  rw [Int.toNat_of_nonpos hk]
  rfl

/-- Trivial collaborator stubs whose completion call always fails. -/
def cTriv : Collaborators :=
  { get_table_schemas_str := fun _ => "schema"
    get_few_shot_messages := fun _ => []
    get_assistant_message := fun _ _ => .error "down"
    extract_sql_query_from_message := fun _ => .error "no sql"
    db := fun _ => .ok ([], []) }

theorem claim_C10_witness :
    (-2 : Int) ≤ 0 ∧
      text_to_sql_with_retry cTriv "q" [] (-2) [⟨"user", "q"⟩] =
        ⟨.exhausted, ⟨0, 0, 0⟩, initialMessages cTriv "q" [] [⟨"user", "q"⟩]⟩ :=
  ⟨by decide, claim_C10_nonpositive_budget cTriv "q" [] (-2) _ (by decide)⟩

theorem retryLoop_success_step (c : Collaborators) (n : Nat) (msgs : List Message)
    (prev : Option String) (content sql_query : String) (response : ResultDict)
    (h1 : c.get_assistant_message msgs "gpt-3.5-turbo-0301" = .ok content)
    (h2 : c.extract_sql_query_from_message content = .ok sql_query)
    (h3 : (execute_sql c.db sql_query).outcome = .ok response) :
    retryLoop c (n + 1) msgs prev = ⟨.success response sql_query, ⟨1, 1, 1⟩, msgs⟩ := by
  unfold retryLoop
  simp only [h1, h2, h3]

/-- C8. With attempt budget 3, if the first completion call yields a
reply from which SQL is extracted, the SQL passes the read-only check
and executes successfully, then `text_to_sql_with_retry` returns the
execution result paired with the extracted SQL after exactly one
completion call (and one extraction and one execution), appending
nothing to the conversation. -/
theorem claim_C8_first_attempt_success (c : Collaborators) (nlq : String)
    (tns : List String) (messages : List Message) (content sql_query : String)
    (response : ResultDict)
    (h1 : c.get_assistant_message (initialMessages c nlq tns messages)
        "gpt-3.5-turbo-0301" = .ok content)
    (h2 : c.extract_sql_query_from_message content = .ok sql_query)
    (h3 : (execute_sql c.db sql_query).outcome = .ok response) :
    text_to_sql_with_retry c nlq tns 3 messages =
      ⟨.success response sql_query, ⟨1, 1, 1⟩, initialMessages c nlq tns messages⟩ := by
  unfold text_to_sql_with_retry
  rw [show (3 : Int).toNat = 2 + 1 from rfl]
  exact retryLoop_success_step c 2 _ none content sql_query response h1 h2 h3

/-- Collaborator stubs that produce valid read-only SQL immediately. -/
def cGood : Collaborators :=
  { get_table_schemas_str := fun _ => "schema"
    get_few_shot_messages := fun _ => []
    get_assistant_message := fun _ _ => .ok "reply"
    extract_sql_query_from_message := fun _ => .ok "SELECT n FROM t"
    db := dbIntRow }

theorem claim_C8_witness :
    text_to_sql_with_retry cGood "q" [] 3 [⟨"user", "q"⟩] =
      ⟨.success ⟨["n"], [[("n", .vInt 42)]], some ["str"]⟩ "SELECT n FROM t", ⟨1, 1, 1⟩,
        initialMessages cGood "q" [] [⟨"user", "q"⟩]⟩ :=
  claim_C8_first_attempt_success cGood "q" [] [⟨"user", "q"⟩] "reply" "SELECT n FROM t"
    _ rfl rfl rfl

/-- C1 (amended). If the completion call of the FIRST attempt fails,
`text_to_sql_with_retry` aborts immediately: the `except` handler
subscripts the still-`None` `assistant_message` and the resulting
`TypeError` propagates to the caller after exactly one completion call,
with no extraction, no execution, and no correction turn appended. -/
theorem claim_C1_first_completion_failure_aborts (c : Collaborators) (nlq : String)
    (tns : List String) (k : Int) (messages : List Message) (e : String)
    (hk : 1 ≤ k)
    (hfail : c.get_assistant_message (initialMessages c nlq tns messages)
        "gpt-3.5-turbo-0301" = .error e) :
    text_to_sql_with_retry c nlq tns k messages =
      ⟨.raised, ⟨1, 0, 0⟩, initialMessages c nlq tns messages⟩ := by
  unfold text_to_sql_with_retry
  obtain ⟨n, hn⟩ : ∃ n, k.toNat = n + 1 := ⟨k.toNat - 1, by omega⟩
  rw [hn]
  unfold retryLoop
  simp only [hfail]

theorem claim_C1_witness :
    text_to_sql_with_retry cTriv "q" [] 3 [⟨"user", "q"⟩] =
      ⟨.raised, ⟨1, 0, 0⟩, initialMessages cTriv "q" [] [⟨"user", "q"⟩]⟩ :=
  claim_C1_first_completion_failure_aborts cTriv "q" [] 3 _ "down" (by decide) rfl

/-- Collaborator script for the C1 counterexample: the completion call
succeeds while the conversation has any length other than 3 and fails
exactly when it has length 3 (which is the state of the second attempt
below); SQL extraction always fails. -/
def cCompletionBlip : Collaborators :=
  { get_table_schemas_str := fun _ => "schema"
    get_few_shot_messages := fun _ => []
    get_assistant_message := fun msgs _ =>
      if msgs.length = 3 then .error "completion down" else .ok "reply"
    extract_sql_query_from_message := fun _ => .error "no sql found"
    db := fun _ => .ok ([], []) }

/-- C1 counterexample. Run `text_to_sql_with_retry` with `k = 3` from
the one-message conversation `[user "q"]` against `cCompletionBlip`.
Attempt 1 completes and fails extraction, leaving a 3-message
conversation on which (first conjunct) the completion call fails — yet
the run (remaining conjuncts) ends in `exhausted`, makes 3 completion
calls in total (so the failing second call was retried), and grows the
conversation to 7 messages (so a correction turn — built from the stale
first reply — was appended after the completion failure).  This refutes
the claim that a completion failure at every attempt index aborts the
whole operation after exactly that one call with nothing appended. -/
theorem claim_C1_counterexample :
    cCompletionBlip.get_assistant_message
        [⟨"user", "q"⟩, ⟨"assistant", "reply"⟩,
         ⟨"user", MSG_WITH_ERROR_TRY_AGAIN "no sql found"⟩] "gpt-3.5-turbo-0301" =
      .error "completion down" ∧
    (text_to_sql_with_retry cCompletionBlip "q" [] 3 [⟨"user", "q"⟩]).result =
      .exhausted ∧
    (text_to_sql_with_retry cCompletionBlip "q" [] 3 [⟨"user", "q"⟩]).counts.completions = 3 ∧
    (text_to_sql_with_retry cCompletionBlip "q" [] 3 [⟨"user", "q"⟩]).messages.length = 7 := by
  refine ⟨rfl, rfl, rfl, rfl⟩

theorem retryLoop_exhausts (c : Collaborators)
    (H : ∀ msgs, ∃ content,
      c.get_assistant_message msgs "gpt-3.5-turbo-0301" = .ok content ∧
        recoverableFailure c content) :
    ∀ (n : Nat) (msgs : List Message) (prev : Option String),
      ∃ t ex, retryLoop c n msgs prev = ⟨.exhausted, ⟨n, n, ex⟩, msgs ++ t⟩ ∧
        t.length = 2 * n ∧ CorrectionTurns t := by
  intro n
  induction n with
  | zero =>
    intro msgs prev
    exact ⟨[], 0, by simp [retryLoop], rfl, .nil⟩
  | succ n ih =>
    intro msgs prev
    obtain ⟨content, hc, hfail⟩ := H msgs
    rcases hfail with ⟨e, he⟩ | ⟨sql, err, hx, he⟩
    · obtain ⟨t, ex, hrec, hlen, hct⟩ := ih
        (msgs ++ [⟨"assistant", content⟩, ⟨"user", MSG_WITH_ERROR_TRY_AGAIN e⟩])
        (some content)
      refine ⟨⟨"assistant", content⟩ :: ⟨"user", MSG_WITH_ERROR_TRY_AGAIN e⟩ :: t,
        ex, ?_, ?_, .cons content e t hct⟩
      · unfold retryLoop
        simp only [hc, he, hrec]
        simp
      · simp only [List.length_cons, hlen]
        omega
    · obtain ⟨t, ex, hrec, hlen, hct⟩ := ih
        (msgs ++ [⟨"assistant", content⟩,
                  ⟨"user", MSG_WITH_ERROR_TRY_AGAIN (pyErrMsg err)⟩])
        (some content)
      refine ⟨⟨"assistant", content⟩ ::
          ⟨"user", MSG_WITH_ERROR_TRY_AGAIN (pyErrMsg err)⟩ :: t,
        ex + 1, ?_, ?_, .cons content (pyErrMsg err) t hct⟩
      · unfold retryLoop
        simp only [hc, hx, he, hrec]
        simp
      · simp only [List.length_cons, hlen]
        omega

/-- C4. If every attempt fails with a recoverable failure (no SQL
extracted, not read-only, or execution error) — stated as: on every
conversation the completion call succeeds and the attempt then fails
recoverably — then `text_to_sql_with_retry` with budget `k` returns the
explicit no-result outcome without raising, after exactly `k` completion
calls, and the conversation grows by exactly `2 * k` messages: one
correction turn (the assistant's raw reply followed by a user message
built from the error-correction template) per failed attempt. -/
theorem claim_C4_exhaustion (c : Collaborators) (nlq : String) (tns : List String)
    (k : Nat) (messages : List Message)
    (H : ∀ msgs, ∃ content,
      c.get_assistant_message msgs "gpt-3.5-turbo-0301" = .ok content ∧
        recoverableFailure c content) :
    ∃ t ex, text_to_sql_with_retry c nlq tns (k : Int) messages =
        ⟨.exhausted, ⟨k, k, ex⟩, initialMessages c nlq tns messages ++ t⟩ ∧
      t.length = 2 * k ∧ CorrectionTurns t := by
  have h := retryLoop_exhausts c H k (initialMessages c nlq tns messages) none
  simpa [text_to_sql_with_retry, Int.toNat_natCast] using h

/-- Collaborator stubs that always reply with mutating SQL. -/
def cMutating : Collaborators :=
  { get_table_schemas_str := fun _ => "schema"
    get_few_shot_messages := fun _ => []
    get_assistant_message := fun _ _ => .ok "use an update statement"
    extract_sql_query_from_message := fun _ => .ok "UPDATE scores SET x = 1"
    db := fun _ => .ok ([], []) }

theorem claim_C4_witness :
    ∃ t ex, text_to_sql_with_retry cMutating "q" [] ((3 : Nat) : Int) [⟨"user", "q"⟩] =
        ⟨.exhausted, ⟨3, 3, ex⟩, initialMessages cMutating "q" [] [⟨"user", "q"⟩] ++ t⟩ ∧
      t.length = 2 * 3 ∧ CorrectionTurns t :=
  claim_C4_exhaustion cMutating "q" [] 3 [⟨"user", "q"⟩]
    (fun _ => ⟨"use an update statement", rfl,
      Or.inr ⟨"UPDATE scores SET x = 1", .notReadOnly, rfl, rfl⟩⟩)
